import Mathlib

/-!
Shallow embedding of the DigitRecognizer webhook bot (`app.py`, with the
classifier architecture coming from `model/train_model.py`).

External effects (the PIL image decoder, the LINE SDK image download and
reply delivery, the Keras model inference) are modelled as explicit
function parameters collected in a `World`; the repository's own control
flow (`preprocess_image`, `callback`, `handle_text_message`,
`handle_image_message`) is translated line by line into pure Lean
functions that additionally record a `Trace` of the observable effects.
-/

set_option autoImplicit false

namespace DigitRecognizer

/-- A Python exception, split into the two classes `app.py` distinguishes:
`LineBotApiError` and every other `Exception`. -/
inductive PyErr where
  | lineApi (msg : String)
  | other (msg : String)
deriving DecidableEq

/-- The result of `Image.open(BytesIO(data)).convert('L').resize((28, 28))`:
a 28x28 grayscale image whose pixels are bytes in `0..255`. -/
structure GrayImage where
  pix : Fin 28 → Fin 28 → Nat
  hpix : ∀ i j, pix i j ≤ 255

/-- A numpy array: a shape together with the row-major flat data. -/
structure Tensor where
  shape : List Nat
  data : List ℚ

/-- `np.array(img) / 255.0` for a 28x28 grayscale image, flattened row-major. -/
def grayData (img : GrayImage) : List ℚ :=
  (List.finRange 28).flatMap fun i =>
    (List.finRange 28).map fun j => (img.pix i j : ℚ) / 255

/-- The `img_array.reshape(1, 28, 28, 1)` step: the normalized pixel data
with the 4-dimensional shape `(1, 28, 28, 1)`. -/
def toTensor (img : GrayImage) : Tensor :=
  ⟨[1, 28, 28, 1], grayData img⟩

/-- `preprocess_image` from `app.py`: decode the bytes (the PIL stage is the
`decode` parameter), normalize by 255 and reshape; a decode failure is
re-raised unchanged. -/
def preprocess_image (decode : List Nat → Option GrayImage)
    (image_data : List Nat) : Except PyErr Tensor :=
  match decode image_data with
  | some img => Except.ok (toTensor img)
  | none => Except.error (PyErr.other "cannot identify image file")

/-- `np.argmax` on one row: the index of the first occurrence of the
maximum value; `0` on the empty list. -/
def npArgmax : List ℚ → Nat
  | [] => 0
  | x :: xs =>
    match xs[npArgmax xs]? with
    | none => 0
    | some v => if x < v then npArgmax xs + 1 else 0

lemma npArgmax_spec (x : ℚ) (xs : List ℚ) :
    npArgmax (x :: xs) ≤ xs.length ∧
      ∃ m, (x :: xs)[npArgmax (x :: xs)]? = some m ∧ ∀ y ∈ x :: xs, y ≤ m := by
  induction xs generalizing x with
  | nil =>
    refine ⟨Nat.le_refl _, x, ?_, ?_⟩
    · rfl
    · intro y hy
      rcases List.mem_singleton.mp hy with rfl
      exact le_refl _
  | cons z zs ih =>
    obtain ⟨hle, m, hm, hmax⟩ := ih z
    by_cases hx : x < m
    · refine ⟨?_, m, ?_, ?_⟩
      · show npArgmax (x :: z :: zs) ≤ zs.length + 1
        unfold npArgmax
        rw [hm]
        simpa [hx] using Nat.succ_le_succ hle
      · show (x :: z :: zs)[npArgmax (x :: z :: zs)]? = some m
        unfold npArgmax
        rw [hm]
        simpa [hx] using hm
      · intro y hy
        rcases List.mem_cons.mp hy with rfl | hy2
        · exact le_of_lt hx
        · exact hmax y hy2
    · refine ⟨?_, x, ?_, ?_⟩
      · show npArgmax (x :: z :: zs) ≤ zs.length + 1
        unfold npArgmax
        rw [hm]
        simp [hx]
      · show (x :: z :: zs)[npArgmax (x :: z :: zs)]? = some x
        unfold npArgmax
        rw [hm]
        simp [hx]
      · intro y hy
        rcases List.mem_cons.mp hy with rfl | hy2
        · exact le_refl _
        · exact le_trans (hmax y hy2) (le_of_not_lt hx)

/-- A LINE message: the two kinds `app.py` registers handlers for. -/
inductive Msg where
  | text (s : String)
  | image (mid : String)
deriving DecidableEq

/-- A LINE `MessageEvent`: a reply token and the message. -/
structure Event where
  replyToken : String
  message : Msg
deriving DecidableEq

/-- The external effects the app calls into, modelled as functions:
`fetch` is `line_bot_api.get_message_content` (keyed by message id, may
raise), `decode` is the PIL decode/grayscale/resize stage, `predict` is
`model.predict` followed by extracting row 0 (may raise), and `replyErr n`
is the outcome of the `n`-th `reply_message` attempt of the request
(`none` = delivered, `some e` = the call raised `e`). -/
structure World where
  fetch : String → Except PyErr (List Nat)
  decode : List Nat → Option GrayImage
  predict : Tensor → Except PyErr (List ℚ)
  replyErr : Nat → Option PyErr

/-- Observable effects of handling a request: every `reply_message` call
made (token, text), the subset that was delivered, and how many times the
preprocessor, the classifier and the image download ran. -/
structure Trace where
  attempts : List (String × String)
  sent : List (String × String)
  fetches : Nat
  preprocesses : Nat
  predicts : Nat
deriving DecidableEq

def Trace.empty : Trace := ⟨[], [], 0, 0, 0⟩

def Trace.append (a b : Trace) : Trace :=
  ⟨a.attempts ++ b.attempts, a.sent ++ b.sent, a.fetches + b.fetches,
    a.preprocesses + b.preprocesses, a.predicts + b.predicts⟩

/-- One `line_bot_api.reply_message(token, TextSendMessage(text))` call:
records the attempt, and on success (`replyErr k = none`) the delivery;
returns the new trace, the next attempt index, and the raised exception
if any. -/
def tryReply (w : World) (k : Nat) (t : Trace) (token text : String) :
    Trace × Nat × Option PyErr :=
  let t1 : Trace := { t with attempts := t.attempts ++ [(token, text)] }
  match w.replyErr k with
  | none => ({ t1 with sent := t1.sent ++ [(token, text)] }, k + 1, none)
  | some e => (t1, k + 1, some e)

/-- The fixed prompt `handle_text_message` replies with. -/
def promptMsg : String := "請傳送一張手寫數字圖片！"

/-- The success reply text built from the predicted digit. -/
def resultMsg (d : Nat) : String := "辨識結果：" ++ toString d

/-- The reply text of the `except LineBotApiError` branch. -/
def apiFailMsg (m : String) : String :=
  "圖片處理失敗 (LINE API 錯誤: " ++ m ++ ")"

/-- The reply text of the generic `except Exception` branch. -/
def genericFailMsg : String := "圖片處理失敗，請稍後再試！"

/-- `handle_text_message` from `app.py`: one reply with the fixed prompt,
no try/except, so a raise from `reply_message` escapes. -/
def handle_text_message (w : World) (k : Nat) (event : Event) :
    Trace × Nat × Option PyErr :=
  tryReply w k Trace.empty event.replyToken promptMsg

/-- The fetch → preprocess → predict body of `handle_image_message`:
returns the effect trace of those three stages, and the prediction row or
the first exception raised. -/
def imagePipeline (w : World) (mid : String) :
    Trace × Except PyErr (List ℚ) :=
  match w.fetch mid with
  | Except.error e => (⟨[], [], 1, 0, 0⟩, Except.error e)
  | Except.ok bytes =>
    match preprocess_image w.decode bytes with
    | Except.error e => (⟨[], [], 1, 1, 0⟩, Except.error e)
    | Except.ok t =>
      match w.predict t with
      | Except.error e => (⟨[], [], 1, 1, 1⟩, Except.error e)
      | Except.ok p => (⟨[], [], 1, 1, 1⟩, Except.ok p)

/-- `handle_image_message` from `app.py`: on success, reply with the
argmax digit; a `LineBotApiError` raised anywhere in the try block is
answered with `apiFailMsg`, any other exception with `genericFailMsg`;
a raise inside an except branch escapes the handler. -/
def handle_image_message (w : World) (k : Nat) (token mid : String) :
    Trace × Nat × Option PyErr :=
  match imagePipeline w mid with
  | (t0, Except.ok p) =>
    match tryReply w k t0 token (resultMsg (npArgmax p)) with
    | (t1, k1, none) => (t1, k1, none)
    | (t1, k1, some (PyErr.lineApi m)) => tryReply w k1 t1 token (apiFailMsg m)
    | (t1, k1, some (PyErr.other _)) => tryReply w k1 t1 token genericFailMsg
  | (t0, Except.error (PyErr.lineApi m)) =>
    tryReply w k t0 token (apiFailMsg m)
  | (t0, Except.error (PyErr.other _)) =>
    tryReply w k t0 token genericFailMsg

/-- Dispatch of `handler.handle`: text events go to `handle_text_message`,
image events to `handle_image_message`. -/
def handleEvent (w : World) (k : Nat) (e : Event) :
    Trace × Nat × Option PyErr :=
  match e.message with
  | Msg.text _ => handle_text_message w k e
  | Msg.image mid => handle_image_message w k e.replyToken mid

/-- `handler.handle` over the event list of the webhook body: events are
processed in order; an exception escaping a handler aborts the rest and
propagates. -/
def handleEvents (w : World) : Nat → List Event → Trace × Nat × Option PyErr
  | k, [] => (Trace.empty, k, none)
  | k, e :: es =>
    match handleEvent w k e with
    | (t, k1, some ex) => (t, k1, some ex)
    | (t, k1, none) =>
      match handleEvents w k1 es with
      | (t2, k2, ex2) => (t.append t2, k2, ex2)

/-- Signature validation of the LINE SDK (modelled: the HMAC comparison is
the `validate` parameter; a missing `X-Line-Signature` header does not
validate). -/
def sigCheck (validate : String → Bool) (sig : Option String) : Bool :=
  match sig with
  | none => false
  | some s => validate s

/-- The HTTP outcome of the `/callback` route: `ok200 "OK"` on normal
return, `status400` for `abort(400)`, and `uncaught e` when an exception
other than `InvalidSignatureError` escapes to the framework. -/
inductive HttpOutcome where
  | ok200 (body : String)
  | status400
  | uncaught (e : PyErr)
deriving DecidableEq

/-- The `/callback` route from `app.py`: `handler.handle` raises
`InvalidSignatureError` on a missing or invalid signature, which is the
only exception caught (→ `abort(400)`); otherwise the handlers run and a
normal return yields the body `OK`. -/
def callback (w : World) (validate : String → Bool) (sig : Option String)
    (events : List Event) : HttpOutcome × Trace :=
  if sigCheck validate sig then
    match handleEvents w 0 events with
    | (t, _, none) => (HttpOutcome.ok200 "OK", t)
    | (t, _, some e) => (HttpOutcome.uncaught e, t)
  else
    (HttpOutcome.status400, Trace.empty)

/-- Python truthiness of `os.getenv` results: `None` and the empty string
are falsy. -/
def truthy : Option String → Bool
  | none => false
  | some s => !(s == "")

/-- The import-time startup sequence of `app.py`: the credential check,
the LINE SDK initialization and `load_model`, each re-raising on failure;
the result is the app configuration requests are served with. -/
def startup {α : Type} (token secret : Option String)
    (initLine : Except String Unit) (loadModel : Except String α) :
    Except String (String × String × α) :=
  if !truthy token || !truthy secret then
    Except.error "LINE_CHANNEL_ACCESS_TOKEN 或 LINE_CHANNEL_SECRET 未設置"
  else
    match initLine with
    | Except.error e => Except.error e
    | Except.ok _ =>
      match loadModel with
      | Except.error e => Except.error e
      | Except.ok m => Except.ok (token.getD "", secret.getD "", m)

/-! Concrete data used by witness and counterexample theorems. -/

/-- A concrete decoded image: constant gray value 128. -/
def img0 : GrayImage :=
  ⟨fun _ _ => 128, fun _ _ => by norm_num⟩

/-- A decoder that decodes every byte string to `img0`. -/
def decode0 : List Nat → Option GrayImage := fun _ => some img0

/-- A decoder that rejects every byte string. -/
def decodeNone : List Nat → Option GrayImage := fun _ => none

/-- A concrete softmax row with its maximum at index 7. -/
def p7 : List ℚ := [0, 0, 0, 0, 0, 0, 0, 1, 0, 0]

/-- A concrete softmax row with its maximum at index 3. -/
def p3 : List ℚ := [0, 0, 0, 1, 0, 0, 0, 0, 0, 0]

/-- A world where every stage succeeds and the prediction is `p7`. -/
def wOk : World :=
  ⟨fun _ => Except.ok [0], decode0, fun _ => Except.ok p7, fun _ => none⟩

/-- A world where every stage succeeds and the prediction is `p3`. -/
def wOk3 : World :=
  ⟨fun _ => Except.ok [0], decode0, fun _ => Except.ok p3, fun _ => none⟩

/-- A world where the image download raises `LineBotApiError "boom"` and
reply delivery succeeds. -/
def wApiFail : World :=
  ⟨fun _ => Except.error (PyErr.lineApi "boom"), decodeNone,
    fun _ => Except.error (PyErr.other "unused"), fun _ => none⟩

/-- A world where the first reply attempt raises a non-LINE exception. -/
def wReplyFail : World :=
  ⟨fun _ => Except.ok [0], decode0, fun _ => Except.ok p7,
    fun _ => some (PyErr.other "network down")⟩

/-- A concrete text event. -/
def evText : Event := ⟨"tok", Msg.text "hi"⟩

/-- A concrete image event. -/
def evImg : Event := ⟨"tok", Msg.image "mid"⟩

/-! Helper lemmas shared by several claim proofs. -/

lemma imagePipeline_ok {w : World} {mid : String} {bs : List Nat}
    {img : GrayImage} {p : List ℚ} (hf : w.fetch mid = Except.ok bs)
    (hd : w.decode bs = some img)
    (hp : w.predict (toTensor img) = Except.ok p) :
    imagePipeline w mid = (⟨[], [], 1, 1, 1⟩, Except.ok p) := by
  unfold imagePipeline
  rw [hf]
  simp only [preprocess_image, hd]
  rw [hp]

lemma imagePipeline_no_reply (w : World) (mid : String) :
    (imagePipeline w mid).1.attempts = [] ∧
      (imagePipeline w mid).1.sent = [] := by
  unfold imagePipeline
  rcases w.fetch mid with e | bs
  · exact ⟨rfl, rfl⟩
  · rcases hpre : preprocess_image w.decode bs with e | t
    · simp [hpre]
    · rcases hpd : w.predict t with e | p <;> simp [hpre, hpd]

lemma npArgmax_le {p : List ℚ} (h : p.length = 10) : npArgmax p ≤ 9 := by
  cases p with
  | nil => simp at h
  | cons x xs =>
    have := (npArgmax_spec x xs).1
    simp only [List.length_cons] at h
    omega

lemma npArgmax_max {p : List ℚ} (h : p ≠ []) :
    ∃ m, p[npArgmax p]? = some m ∧ ∀ y ∈ p, y ≤ m := by
  cases p with
  | nil => exact absurd rfl h
  | cons x xs => exact (npArgmax_spec x xs).2

/-! The claim theorems. -/

/-- Claim C1: for every byte sequence that decodes as a valid image,
`preprocess_image` returns the tensor of shape `(1, 28, 28, 1)` obtained
by dividing the grayscale 28x28 pixel values by 255 and reshaping, and
all its values lie in `[0, 1]`. -/
theorem preprocess_valid_image (decode : List Nat → Option GrayImage)
    (bs : List Nat) (img : GrayImage) (h : decode bs = some img) :
    preprocess_image decode bs = Except.ok ⟨[1, 28, 28, 1], grayData img⟩ ∧
      (toTensor img).shape = [1, 28, 28, 1] ∧
      ∀ x ∈ (toTensor img).data, 0 ≤ x ∧ x ≤ 1 := by
  refine ⟨by simp [preprocess_image, h, toTensor], rfl, ?_⟩
  intro x hx
  simp only [toTensor, grayData, List.mem_flatMap, List.mem_map] at hx
  obtain ⟨i, _, j, _, rfl⟩ := hx
  constructor
  · exact div_nonneg (Nat.cast_nonneg _) (by norm_num)
  · rw [div_le_one (by norm_num)]
    exact_mod_cast img.hpix i j

/-- Witness for C1 at the constant image `img0`. -/
theorem preprocess_valid_image_witness :
    decode0 [0] = some img0 ∧
      (preprocess_image decode0 [0] = Except.ok ⟨[1, 28, 28, 1], grayData img0⟩ ∧
        (toTensor img0).shape = [1, 28, 28, 1] ∧
        ∀ x ∈ (toTensor img0).data, 0 ≤ x ∧ x ≤ 1) :=
  ⟨rfl, preprocess_valid_image decode0 [0] img0 rfl⟩

/-- Claim C6: for every byte sequence the decoder rejects,
`preprocess_image` raises (returns the decode error) and never returns a
tensor. -/
theorem preprocess_rejects_nonimage (decode : List Nat → Option GrayImage)
    (bs : List Nat) (h : decode bs = none) :
    preprocess_image decode bs =
        Except.error (PyErr.other "cannot identify image file") ∧
      ∀ t, preprocess_image decode bs ≠ Except.ok t := by
  refine ⟨by simp [preprocess_image, h], ?_⟩
  intro t ht
  rw [preprocess_image, h] at ht
  exact Except.noConfusion ht

/-- Witness for C6 at the rejecting decoder. -/
theorem preprocess_rejects_nonimage_witness :
    decodeNone [1, 2] = none ∧
      (preprocess_image decodeNone [1, 2] =
          Except.error (PyErr.other "cannot identify image file") ∧
        ∀ t, preprocess_image decodeNone [1, 2] ≠ Except.ok t) :=
  ⟨rfl, preprocess_rejects_nonimage decodeNone [1, 2] rfl⟩

/-- Claim C2: for every image message processed successfully, the digit in
the reply is `npArgmax` of the model's output row, that index is in
`0..9` (the row has the 10 classes of the trained model), and the value at
that index is maximal in the row. -/
theorem predicted_digit_is_argmax (w : World) (k : Nat) (token mid : String)
    (bs : List Nat) (img : GrayImage) (p : List ℚ)
    (hf : w.fetch mid = Except.ok bs) (hd : w.decode bs = some img)
    (hp : w.predict (toTensor img) = Except.ok p) (hlen : p.length = 10) :
    (handle_image_message w k token mid).1.attempts.head? =
        some (token, resultMsg (npArgmax p)) ∧
      npArgmax p ≤ 9 ∧
      ∃ m, p[npArgmax p]? = some m ∧ ∀ y ∈ p, y ≤ m := by
  refine ⟨?_, npArgmax_le hlen, npArgmax_max (by intro h; simp [h] at hlen)⟩
  unfold handle_image_message
  rw [imagePipeline_ok hf hd hp]
  rcases hr : w.replyErr k with _ | e
  · simp [tryReply, hr]
  · rcases e with m | m <;>
      rcases hr2 : w.replyErr (k + 1) with _ | e2 <;>
        simp [tryReply, hr, hr2]

/-- Witness for C2 in a world predicting `p7` (maximum at index 7). -/
theorem predicted_digit_is_argmax_witness :
    wOk.fetch "mid" = Except.ok [0] ∧ wOk.decode [0] = some img0 ∧
      wOk.predict (toTensor img0) = Except.ok p7 ∧ p7.length = 10 ∧
      ((handle_image_message wOk 0 "tok" "mid").1.attempts.head? =
          some ("tok", resultMsg (npArgmax p7)) ∧
        npArgmax p7 ≤ 9 ∧
        ∃ m, p7[npArgmax p7]? = some m ∧ ∀ y ∈ p7, y ≤ m) :=
  ⟨rfl, rfl, rfl, rfl,
    predicted_digit_is_argmax wOk 0 "tok" "mid" [0] img0 p7 rfl rfl rfl rfl⟩

/-- Claim C10: on a fully successful classification whose reply is
delivered, the one delivered reply carries the event's reply token and
exactly the text `辨識結果：` followed by the argmax digit, and the handler
raises nothing. -/
theorem success_reply_format (w : World) (k : Nat) (token mid : String)
    (bs : List Nat) (img : GrayImage) (p : List ℚ)
    (hf : w.fetch mid = Except.ok bs) (hd : w.decode bs = some img)
    (hp : w.predict (toTensor img) = Except.ok p)
    (hr : w.replyErr k = none) :
    (handle_image_message w k token mid).1.sent =
        [(token, resultMsg (npArgmax p))] ∧
      (handle_image_message w k token mid).2.2 = none := by
  unfold handle_image_message
  rw [imagePipeline_ok hf hd hp]
  simp [tryReply, hr]

/-- Witness for C10 in a world predicting `p3` (maximum at index 3). -/
theorem success_reply_format_witness :
    wOk3.fetch "mid" = Except.ok [0] ∧ wOk3.decode [0] = some img0 ∧
      wOk3.predict (toTensor img0) = Except.ok p3 ∧
      wOk3.replyErr 0 = none ∧
      ((handle_image_message wOk3 0 "tok" "mid").1.sent =
          [("tok", resultMsg (npArgmax p3))] ∧
        (handle_image_message wOk3 0 "tok" "mid").2.2 = none) :=
  ⟨rfl, rfl, rfl, rfl,
    success_reply_format wOk3 0 "tok" "mid" [0] img0 p3 rfl rfl rfl rfl⟩

/-- Claim C3: a request whose signature is missing or does not validate is
answered with HTTP 400, and no reply is attempted and the classifier never
runs. -/
theorem callback_rejects_invalid_signature (w : World)
    (validate : String → Bool) (sig : Option String) (events : List Event)
    (h : sig = none ∨ ∃ s, sig = some s ∧ validate s = false) :
    callback w validate sig events = (HttpOutcome.status400, Trace.empty) ∧
      (callback w validate sig events).2.attempts = [] ∧
      (callback w validate sig events).2.sent = [] ∧
      (callback w validate sig events).2.predicts = 0 := by
  have hsc : sigCheck validate sig = false := by
    rcases h with rfl | ⟨s, rfl, hv⟩ <;> simp [sigCheck, *]
  refine ⟨?_, ?_, ?_, ?_⟩ <;> simp [callback, hsc, Trace.empty]

/-- Witness for C3 with a missing signature header. -/
theorem callback_rejects_invalid_signature_witness :
    ((none : Option String) = none ∨
        ∃ s, (none : Option String) = some s ∧ (fun (_ : String) => true) s = false) ∧
      (callback wOk (fun _ => true) none [evImg] =
          (HttpOutcome.status400, Trace.empty) ∧
        (callback wOk (fun _ => true) none [evImg]).2.attempts = [] ∧
        (callback wOk (fun _ => true) none [evImg]).2.sent = [] ∧
        (callback wOk (fun _ => true) none [evImg]).2.predicts = 0) :=
  ⟨Or.inl rfl,
    callback_rejects_invalid_signature wOk (fun _ => true) none [evImg] (Or.inl rfl)⟩

/-- Claim C7: a text message event, whatever its text, produces exactly one
reply attempt with the fixed prompt, and never runs the image download,
the preprocessor or the classifier. -/
theorem text_message_fixed_reply (w : World) (k : Nat) (token s : String) :
    (handleEvent w k ⟨token, Msg.text s⟩).1.attempts = [(token, promptMsg)] ∧
      (handleEvent w k ⟨token, Msg.text s⟩).1.fetches = 0 ∧
      (handleEvent w k ⟨token, Msg.text s⟩).1.preprocesses = 0 ∧
      (handleEvent w k ⟨token, Msg.text s⟩).1.predicts = 0 := by
  unfold handleEvent handle_text_message tryReply Trace.empty
  rcases w.replyErr k with _ | e <;> simp

/-- Claim C8: `handle_image_message` delivers at most one reply, and every
delivered reply uses the event's reply token. -/
theorem at_most_one_reply (w : World) (k : Nat) (token mid : String) :
    (handle_image_message w k token mid).1.sent.length ≤ 1 ∧
      ∀ r ∈ (handle_image_message w k token mid).1.sent, r.1 = token := by
  obtain ⟨hatt, hsent⟩ := imagePipeline_no_reply w mid
  unfold handle_image_message
  rcases hp : imagePipeline w mid with ⟨t0, r⟩
  rw [hp] at hsent
  simp only at hsent
  rcases r with e | p
  · rcases e with m | m <;>
      rcases hr : w.replyErr k with _ | e1 <;> simp [tryReply, hr, hsent]
  · rcases hr : w.replyErr k with _ | e1
    · simp [tryReply, hr, hsent]
    · rcases e1 with m | m <;>
        rcases hr2 : w.replyErr (k + 1) with _ | e2 <;>
          simp [tryReply, hr, hr2, hsent]

/-- Claim C9: if the access token or the channel secret is unset, or the
model file cannot be loaded, startup raises: it returns an error and never
an app configuration, so no request handling begins. -/
theorem startup_aborts_on_failure {α : Type} (token secret : Option String)
    (initLine : Except String Unit) (loadResult : Except String α)
    (h : token = none ∨ secret = none ∨ ∃ e, loadResult = Except.error e) :
    (∃ msg, startup token secret initLine loadResult = Except.error msg) ∧
      ∀ a, startup token secret initLine loadResult ≠ Except.ok a := by
  have hmain : ∃ msg,
      startup token secret initLine loadResult = Except.error msg := by
    rcases h with rfl | rfl | ⟨e, rfl⟩
    · exact ⟨"LINE_CHANNEL_ACCESS_TOKEN 或 LINE_CHANNEL_SECRET 未設置",
        by simp [startup, truthy]⟩
    · exact ⟨"LINE_CHANNEL_ACCESS_TOKEN 或 LINE_CHANNEL_SECRET 未設置",
        by simp [startup, truthy]⟩
    · unfold startup
      cases h2 : (!truthy token || !truthy secret)
      · rcases initLine with e2 | u
        · exact ⟨e2, by simp [h2]⟩
        · exact ⟨e, by simp [h2]⟩
      · exact ⟨"LINE_CHANNEL_ACCESS_TOKEN 或 LINE_CHANNEL_SECRET 未設置",
          by simp [h2]⟩
  obtain ⟨msg, hmsg⟩ := hmain
  refine ⟨⟨msg, hmsg⟩, fun a ha => ?_⟩
  rw [hmsg] at ha
  exact Except.noConfusion ha

/-- Witness for C9 with an unset access token. -/
theorem startup_aborts_on_failure_witness :
    ((none : Option String) = none ∨ some "secret" = none ∨
        ∃ e, (Except.ok 0 : Except String Nat) = Except.error e) ∧
      ((∃ msg, startup none (some "secret") (Except.ok ()) (Except.ok 0) =
          Except.error msg) ∧
        ∀ a, startup none (some "secret") (Except.ok ()) (Except.ok 0) ≠
          Except.ok a) :=
  ⟨Or.inl rfl,
    startup_aborts_on_failure none (some "secret") (Except.ok ())
      (Except.ok 0) (Or.inl rfl)⟩

/-- Counterexample to C5 as stated: with a valid signature, when the text
handler's reply raises, the exception escapes `callback` uncaught (the
framework turns it into a 500); the status is not 400. -/
theorem callback_error_status_cex :
    (callback wReplyFail (fun _ => true) (some "sig") [evText]).1 =
        HttpOutcome.uncaught (PyErr.other "network down") ∧
      (callback wReplyFail (fun _ => true) (some "sig") [evText]).1 ≠
        HttpOutcome.status400 :=
  ⟨rfl, by decide⟩

/-- Claim C5 (amended): `callback` returns `OK`/200 when the handlers
return normally, 400 exactly on signature failure; an exception escaping a
handler propagates uncaught out of the route (it does not become 400). -/
theorem callback_status_characterization (w : World)
    (validate : String → Bool) (sig : Option String) (events : List Event) :
    (sigCheck validate sig = false →
        (callback w validate sig events).1 = HttpOutcome.status400) ∧
      (sigCheck validate sig = true →
        ((handleEvents w 0 events).2.2 = none →
            callback w validate sig events =
              (HttpOutcome.ok200 "OK", (handleEvents w 0 events).1)) ∧
          ∀ e, (handleEvents w 0 events).2.2 = some e →
            (callback w validate sig events).1 = HttpOutcome.uncaught e) := by
  rcases hh : handleEvents w 0 events with ⟨t, k, err⟩
  cases hs : sigCheck validate sig
  · simp [callback, hs]
  · rcases err with _ | e <;> simp [callback, hs, hh]

/-- Witness for C5 (amended) at a failing signature check. -/
theorem callback_status_characterization_witness :
    sigCheck (fun (_ : String) => false) (some "x") = false ∧
      (callback wOk (fun _ => false) (some "x") []).1 =
        HttpOutcome.status400 :=
  ⟨rfl, (callback_status_characterization wOk (fun _ => false) (some "x") []).1 rfl⟩

/-- Counterexample to C4 as stated: when the image download raises
`LineBotApiError`, the delivered reply embeds the error detail instead of
the fixed generic processing-failed message. -/
theorem image_error_reply_not_generic :
    (handle_image_message wApiFail 0 "tok" "mid").1.sent =
        [("tok", apiFailMsg "boom")] ∧
      apiFailMsg "boom" ≠ genericFailMsg :=
  ⟨rfl, by decide⟩

/-- Claim C4 (amended): when download, decoding or inference raises and
the error reply itself is delivered, the exception is caught inside
`handle_image_message`, the user receives one processing-failure reply on
the event's token (the fixed generic message, or the message embedding the
LINE API error detail), and the callback still returns `OK`/200. -/
theorem image_error_caught_and_replied (w : World)
    (validate : String → Bool) (s token mid : String) (e : PyErr)
    (hv : validate s = true)
    (herr : (imagePipeline w mid).2 = Except.error e)
    (hrep : ∀ n, w.replyErr n = none) :
    (handle_image_message w 0 token mid).2.2 = none ∧
      (∃ txt, (handle_image_message w 0 token mid).1.sent = [(token, txt)] ∧
        (txt = genericFailMsg ∨ ∃ m, txt = apiFailMsg m)) ∧
      (callback w validate (some s) [⟨token, Msg.image mid⟩]).1 =
        HttpOutcome.ok200 "OK" := by
  obtain ⟨hatt, hsent⟩ := imagePipeline_no_reply w mid
  rcases hp : imagePipeline w mid with ⟨t0, r⟩
  rw [hp] at hsent herr
  simp only at hsent herr
  subst herr
  have hmain : ∃ txt, handle_image_message w 0 token mid =
      (⟨t0.attempts ++ [(token, txt)], t0.sent ++ [(token, txt)],
          t0.fetches, t0.preprocesses, t0.predicts⟩, 1, none) ∧
        (txt = genericFailMsg ∨ ∃ m, txt = apiFailMsg m) := by
    rcases e with m | m
    · refine ⟨apiFailMsg m, ?_, Or.inr ⟨m, rfl⟩⟩
      unfold handle_image_message
      rw [hp]
      simp [tryReply, hrep 0]
    · refine ⟨genericFailMsg, ?_, Or.inl rfl⟩
      unfold handle_image_message
      rw [hp]
      simp [tryReply, hrep 0]
  obtain ⟨txt, hh, hkind⟩ := hmain
  refine ⟨by rw [hh], ⟨txt, ?_, hkind⟩, ?_⟩
  · rw [hh]
    simp [hsent]
  · simp [callback, sigCheck, hv, handleEvents, handleEvent, hh]

/-- Witness for C4 (amended) at a failing download with delivered reply. -/
theorem image_error_caught_and_replied_witness :
    (fun (_ : String) => true) "sig" = true ∧
      (imagePipeline wApiFail "mid").2 =
        Except.error (PyErr.lineApi "boom") ∧
      (∀ n, wApiFail.replyErr n = none) ∧
      ((handle_image_message wApiFail 0 "tok" "mid").2.2 = none ∧
        (∃ txt, (handle_image_message wApiFail 0 "tok" "mid").1.sent =
            [("tok", txt)] ∧
          (txt = genericFailMsg ∨ ∃ m, txt = apiFailMsg m)) ∧
        (callback wApiFail (fun _ => true) (some "sig")
            [⟨"tok", Msg.image "mid"⟩]).1 = HttpOutcome.ok200 "OK") :=
  ⟨rfl, rfl, fun _ => rfl,
    image_error_caught_and_replied wApiFail (fun _ => true) "sig" "tok" "mid"
      (PyErr.lineApi "boom") rfl rfl (fun _ => rfl)⟩

end DigitRecognizer
